import Mathlib

/-!
# Telemetry ingestion and connectivity tracking — verification development

Shallow embedding of the telemetry core of the IoT platform:

* `mqtt_handler.py` — connection manager, topic parsing, payload decoding,
  publish / send_command;
* `data_processor.py` — `process_mqtt_message`, the ingestion pipeline;
* `influx_handler.py` — `_get_device_status`, the liveness evaluator;
* `mongo_handler.py` — the device-registry operations used by ingestion.

Python strings are embedded as Lean `String`, but the Python string methods
used by the code (`str.split`, `str.replace`) are re-implemented structurally
below (`pySplit`, `pyReplace`) so that every definition evaluates inside the
kernel.  `json.loads` is modelled by an executable JSON parser (`loads`).
Wall-clock instants (`datetime.utcnow()` / `time.time()`) are modelled as a
`Nat` tick supplied by an `Env`; `datetime.fromisoformat` is an external
stdlib collaborator and is a function field of `Env`.

The two storage collaborators are modelled through the narrow interfaces the
core consumes: a registry (`MongoAdapter`, from `mongo_handler.py`) and a
time-series store (`InfluxAdapter`) whose `write_data_point` succeeds or fails
according to a pre-arranged list of outcomes `writeResults`.
-/

namespace IoTSpec

/-! ## JSON values (results of `json.loads`) -/

/-- A decoded JSON value, the Lean image of what `json.loads` returns.
Numeric literals are kept as their source text (`num "22.3"`): the ingestion
core never computes with payload numbers, it only moves them around. -/
inductive Json where
  | obj (entries : List (String × Json))
  | arr (items : List Json)
  | str (text : String)
  | num (lit : String)
  | bool (b : Bool)
  | null
deriving Repr, Inhabited

/-! ## Python string methods, structurally -/

/-- Helper for `pySplit`: `cur` is the reversed current segment. -/
def pySplitAux (sep : Char) : List Char → List Char → List String
  | cur, [] => [String.mk cur.reverse]
  | cur, c :: cs =>
    if c = sep then String.mk cur.reverse :: pySplitAux sep [] cs
    else pySplitAux sep (c :: cur) cs

/-- Python `s.split(sep)` for a single-character separator: keeps empty
segments, and `"".split(sep) == [""]`. -/
def pySplit (s : String) (sep : Char) : List String :=
  pySplitAux sep [] s.data

/-- Does `pat` prefix the list?  If so return the remainder. -/
def dropPrefixChars : List Char → List Char → Option (List Char)
  | [], cs => some cs
  | _ :: _, [] => none
  | p :: ps, c :: cs => if p = c then dropPrefixChars ps cs else none

/-- Fuel-indexed worker for `pyReplace`. -/
def pyReplaceAux (pat rep : List Char) : Nat → List Char → List Char
  | 0, cs => cs
  | _ + 1, [] => []
  | fuel + 1, c :: cs =>
    match dropPrefixChars pat (c :: cs) with
    | some rest => rep ++ pyReplaceAux pat rep fuel rest
    | none => c :: pyReplaceAux pat rep fuel cs

/-- Python `s.replace(pat, rep)` for a non-empty `pat`: replaces every
non-overlapping occurrence, left to right. -/
def pyReplace (s pat rep : String) : String :=
  String.mk (pyReplaceAux pat.data rep.data (s.data.length + 1) s.data)

/-! ## A JSON parser modelling `json.loads`

`json.loads` accepts standard JSON plus the literals `NaN`, `Infinity` and
`-Infinity`.  The parser below works on `List Char` with a fuel argument so
that it is structurally recursive and kernel-evaluable.  Duplicate keys in an
object collapse with last-value-wins, as in Python dicts. -/

/-- JSON whitespace: space, tab, line feed, carriage return. -/
def isJsonWs (c : Char) : Bool :=
  c = ' ' || c = '\n' || c = '\t' || c = '\r'

def skipWs : List Char → List Char
  | [] => []
  | c :: cs => if isJsonWs c then skipWs cs else c :: cs

def isDigitChar (c : Char) : Bool := 48 ≤ c.toNat && c.toNat ≤ 57

/-- Value of one hexadecimal digit, written over code points. -/
def hexDigitVal (c : Char) : Option Nat :=
  let n := c.toNat
  if 48 ≤ n && n ≤ 57 then some (n - 48)        -- 0-9
  else if 97 ≤ n && n ≤ 102 then some (n - 87)  -- a-f
  else if 65 ≤ n && n ≤ 70 then some (n - 55)   -- A-F
  else none

/-- Insert into an assoc list with Python-dict semantics: an existing key
keeps its position and gets the new value, a fresh key is appended. -/
def objInsert (kvs : List (String × Json)) (k : String) (v : Json) :
    List (String × Json) :=
  match kvs with
  | [] => [(k, v)]
  | (k', v') :: rest =>
    if k' = k then (k', v) :: rest else (k', v') :: objInsert rest k v

/-- Parse the body of a JSON string (the opening quote already consumed),
accumulating characters in reverse. -/
def parseStrBody : Nat → List Char → List Char → Option (String × List Char)
  | 0, _, _ => none
  | _ + 1, _, [] => none
  | fuel + 1, acc, c :: cs =>
    if c = '"' then some (String.mk acc.reverse, cs)
    else if c = '\\' then
      match cs with
      | [] => none
      | e :: cs' =>
        if e = '"' then parseStrBody fuel ('"' :: acc) cs'
        else if e = '\\' then parseStrBody fuel ('\\' :: acc) cs'
        else if e = '/' then parseStrBody fuel ('/' :: acc) cs'
        else if e = 'b' then parseStrBody fuel ('\x08' :: acc) cs'
        else if e = 'f' then parseStrBody fuel ('\x0c' :: acc) cs'
        else if e = 'n' then parseStrBody fuel ('\n' :: acc) cs'
        else if e = 'r' then parseStrBody fuel ('\r' :: acc) cs'
        else if e = 't' then parseStrBody fuel ('\t' :: acc) cs'
        else if e = 'u' then
          match cs' with
          | h1 :: h2 :: h3 :: h4 :: cs'' =>
            match hexDigitVal h1, hexDigitVal h2, hexDigitVal h3, hexDigitVal h4 with
            | some a, some b, some c1, some d =>
              parseStrBody fuel
                (Char.ofNat (a * 4096 + b * 256 + c1 * 16 + d) :: acc) cs''
            | _, _, _, _ => none
          | _ => none
        else none
    else if c.toNat < 0x20 then none  -- strict mode rejects raw control chars
    else parseStrBody fuel (c :: acc) cs

/-- Take a maximal run of decimal digits (reversed accumulator). -/
def digitRun : List Char → List Char → List Char × List Char
  | acc, [] => (acc, [])
  | acc, c :: cs =>
    if isDigitChar c then digitRun (c :: acc) cs else (acc, c :: cs)

/-- Parse the fraction-and-exponent tail of a number; `acc` holds the
reversed literal so far. -/
def parseNumTail (acc : List Char) (cs : List Char) :
    Option (String × List Char) :=
  -- optional fraction
  let (acc, cs) :=
    match cs with
    | '.' :: cs' =>
      match digitRun [] cs' with
      | ([], _) => ([], [])  -- marker for failure, checked below
      | (ds, rest) => (ds ++ '.' :: acc, rest)
    | _ => (acc, cs)
  if acc.isEmpty then none
  else
    -- optional exponent
    match cs with
    | e :: cs' =>
      if e = 'e' || e = 'E' then
        let (sgn, cs'') :=
          match cs' with
          | s :: cs'' => if s = '+' || s = '-' then ([s], cs'') else ([], cs')
          | [] => ([], [])
        match digitRun [] cs'' with
        | ([], _) => none
        | (ds, rest) => some (String.mk (ds ++ sgn.reverse ++ e :: acc).reverse, rest)
      else some (String.mk acc.reverse, e :: cs')
    | [] => some (String.mk acc.reverse, [])

/-- Parse a JSON number starting at `cs` (first char is `-` or a digit);
returns the literal text.  The integer part is `0` or a nonzero digit
followed by digits. -/
def parseNumCore (sign : List Char) (cs : List Char) :
    Option (String × List Char) :=
  match cs with
  | '0' :: rest => parseNumTail ('0' :: sign) rest
  | c :: _ =>
    if isDigitChar c then
      match digitRun [] cs with
      | (ds, rest) => parseNumTail (ds ++ sign) rest
    else none
  | [] => none

def parseNumber (cs : List Char) : Option (String × List Char) :=
  match cs with
  | '-' :: rest => parseNumCore ['-'] rest
  | _ => parseNumCore [] cs

mutual

/-- Parse one JSON value at the head of `cs` (no leading whitespace). -/
def parseValue : Nat → List Char → Option (Json × List Char)
  | 0, _ => none
  | _ + 1, [] => none
  | fuel + 1, c :: cs =>
    if c = '{' then parseObj fuel [] (skipWs cs) true
    else if c = '[' then parseArr fuel [] (skipWs cs) true
    else if c = '"' then
      match parseStrBody (cs.length + 1) [] cs with
      | some (s, rest) => some (.str s, rest)
      | none => none
    else match dropPrefixChars "true".data (c :: cs) with
    | some rest => some (.bool true, rest)
    | none => match dropPrefixChars "false".data (c :: cs) with
    | some rest => some (.bool false, rest)
    | none => match dropPrefixChars "null".data (c :: cs) with
    | some rest => some (.null, rest)
    | none => match dropPrefixChars "NaN".data (c :: cs) with
    | some rest => some (.num "NaN", rest)
    | none => match dropPrefixChars "Infinity".data (c :: cs) with
    | some rest => some (.num "Infinity", rest)
    | none => match dropPrefixChars "-Infinity".data (c :: cs) with
    | some rest => some (.num "-Infinity", rest)
    | none => match parseNumber (c :: cs) with
    | some (lit, rest) => some (.num lit, rest)
    | none => none

/-- Parse object members; `first` is true right after `{`. -/
def parseObj (fuel : Nat) (acc : List (String × Json)) (cs : List Char)
    (first : Bool) : Option (Json × List Char) :=
  match fuel with
  | 0 => none
  | fuel + 1 =>
    match cs with
    | '}' :: rest => if first then some (.obj acc.reverse, rest) else none
    | '"' :: cs' =>
      match parseStrBody (cs'.length + 1) [] cs' with
      | none => none
      | some (k, rest) =>
        match skipWs rest with
        | ':' :: rest' =>
          match parseValue fuel (skipWs rest') with
          | none => none
          | some (v, rest'') =>
            match skipWs rest'' with
            | ',' :: rest''' =>
              parseObj fuel (objInsert acc.reverse k v).reverse
                (skipWs rest''') false
            | '}' :: rest''' =>
              some (.obj (objInsert acc.reverse k v), rest''')
            | _ => none
        | _ => none
    | _ => none

/-- Parse array elements; `first` is true right after `[`. -/
def parseArr (fuel : Nat) (acc : List Json) (cs : List Char)
    (first : Bool) : Option (Json × List Char) :=
  match fuel with
  | 0 => none
  | fuel + 1 =>
    match cs with
    | ']' :: rest => if first then some (.arr acc.reverse, rest) else none
    | _ =>
      match parseValue fuel cs with
      | none => none
      | some (v, rest) =>
        match skipWs rest with
        | ',' :: rest' => parseArr fuel (v :: acc) (skipWs rest') false
        | ']' :: rest' => some (.arr (v :: acc).reverse, rest')
        | _ => none

end

/-- Model of Python `json.loads`: parse one value, then require only
whitespace to remain; otherwise the call raises `JSONDecodeError`,
modelled as `none`. -/
def loads (s : String) : Option Json :=
  match parseValue (2 * s.data.length + 2) (skipWs s.data) with
  | some (v, rest) => if (skipWs rest).isEmpty then some v else none
  | none => none

/-! ## TopicRouter and MessageDecoder (`mqtt_handler._on_message`) -/

/-- Result of parsing an inbound topic. -/
inductive ParseResult where
  | ok (deviceId channel : String)
  | invalidTopic
deriving Repr, DecidableEq

/-- Topic parsing in `MQTTHandler._on_message`:
`parts = msg.topic.split('/')`; a topic with at least 4 segments yields
`(parts[1], parts[3])`, anything shorter is logged and dropped. -/
def parseTopic (topic : String) : ParseResult :=
  let parts := pySplit topic '/'
  if 4 ≤ parts.length then .ok parts[1]! parts[3]! else .invalidTopic

/-- Payload decoding in `MQTTHandler._on_message`:
`json.loads` of the payload text; on `JSONDecodeError` the fallback record
`{'value': <raw text>}` is used.  Total: decoding never raises. -/
def decodePayload (raw : String) : Json :=
  match loads raw with
  | some j => j
  | none => .obj [("value", .str raw)]

/-- The whole receive callback: parse the topic, decode the payload and hand
`(device_id, measurement, payload)` to the registered callbacks; `none` means
the message was dropped (invalid topic) and the pipeline continues. -/
def onMessage (topic rawPayload : String) :
    Option (String × String × Json) :=
  match parseTopic topic with
  | .ok deviceId channel => some (deviceId, channel, decodePayload rawPayload)
  | .invalidTopic => none

/-! ## Python truthiness for decoded JSON values -/

/-- Is a JSON numeric literal the number zero?  (Zero iff the mantissa has no
nonzero digit; `NaN`/`Infinity` contain letters and are never zero.) -/
def jsonNumIsZero (lit : String) : Bool :=
  (lit.data.takeWhile (fun c => !(c == 'e' || c == 'E'))).all
    (fun c => c == '0' || c == '.' || c == '-' || c == '+')

/-- Python truthiness of a decoded JSON value (`if timestamp:`). -/
def pyTruthy : Json → Bool
  | .null => false
  | .bool b => b
  | .num lit => !jsonNumIsZero lit
  | .str s => !s.data.isEmpty
  | .arr elems => !elems.isEmpty
  | .obj kvs => !kvs.isEmpty

/-- Python `dict.get`: the parser collapses duplicate keys, so plain
first-match lookup. -/
def dictGet (kvs : List (String × Json)) (k : String) : Option Json :=
  match kvs with
  | [] => none
  | (k', v) :: rest => if k' = k then some v else dictGet rest k

/-! ## The device registry (`mongo_handler.py`) -/

/-- A device document in the registry.  Only the fields the ingestion core
touches are modelled; `status` is a stored string, `lastSeen` a stored tick. -/
structure Device where
  deviceId : String
  status : String
  lastSeen : Option Nat
deriving Repr, DecidableEq

/-- The registry adapter: connection flag plus the `devices` collection. -/
structure MongoAdapter where
  connected : Bool
  devices : List Device
deriving Repr, DecidableEq

/-- Model of `db.devices.update_one(filter, set)`: update the first matching document
only; the returned flag is `modified_count > 0`, i.e. a document matched and
actually changed. -/
def updateFirstDevice (ds : List Device) (deviceId : String)
    (f : Device → Device) : List Device × Bool :=
  match ds with
  | [] => ([], false)
  | d :: rest =>
    if d.deviceId = deviceId then ((f d) :: rest, decide (f d ≠ d))
    else
      let r := updateFirstDevice rest deviceId f
      (d :: r.1, r.2)

/-- Model of `MongoDBHandler.get_device`: `None` when disconnected, else `find_one`. -/
def getDevice (mh : MongoAdapter) (deviceId : String) : Option Device :=
  if mh.connected then mh.devices.find? (fun d => d.deviceId == deviceId)
  else none

/-- Model of `MongoDBHandler.update_device_last_seen`: sets `last_seen = time.time()`
on the first matching document; never creates a document (no upsert). -/
def updateDeviceLastSeen (mh : MongoAdapter) (deviceId : String) (now : Nat) :
    MongoAdapter × Bool :=
  if mh.connected then
    let r := updateFirstDevice mh.devices deviceId
      (fun d => { d with lastSeen := some now })
    ({ mh with devices := r.1 }, r.2)
  else (mh, false)

/-- Model of `MongoDBHandler.update_device_status`: sets `status` on the first matching
document; never creates a document (no upsert). -/
def updateDeviceStatus (mh : MongoAdapter) (deviceId status : String) :
    MongoAdapter × Bool :=
  if mh.connected then
    let r := updateFirstDevice mh.devices deviceId
      (fun d => { d with status := status })
    ({ mh with devices := r.1 }, r.2)
  else (mh, false)

/-! ## The time-series store adapter

`data_processor.py` consumes the storage adapter through
`is_connected()` / `write_data_point(point)`.  The adapter is an external
collaborator; its write outcomes are modelled as a pre-arranged list
`writeResults`, consumed one entry per write call, and a successful write
appends the point to the stored sequence. -/

/-- A storage point exactly as `process_mqtt_message` builds it:
`{measurement, tags: {device_id}, time, fields}`. -/
structure Point where
  measurement : String
  deviceId : String
  time : Nat
  fields : List (String × Json)
deriving Repr

/-- The time-series store adapter. -/
structure InfluxAdapter where
  connected : Bool
  writeResults : List Bool
  points : List Point
deriving Repr

/-- One `write_data_point` call: consumes the next arranged outcome; on
success the point is persisted.  (With no arranged outcome left the write
fails.)  No internal retry: at most one outcome is consumed per call. -/
def writeDataPoint (ih : InfluxAdapter) (pt : Point) : Bool × InfluxAdapter :=
  match ih.writeResults with
  | r :: rest =>
    (r, { ih with writeResults := rest,
                  points := if r then ih.points ++ [pt] else ih.points })
  | [] => (false, ih)

/-! ## The ingestion pipeline (`data_processor.process_mqtt_message`) -/

/-- The ambient environment of one ingestion call: the wall clock as a `Nat`
tick (one value for `datetime.utcnow()` and `time.time()` during the call)
and `datetime.fromisoformat`, the stdlib parser, as an abstract collaborator
returning the denoted instant when the string is parseable. -/
structure Env where
  now : Nat
  parseIso : String → Option Nat

/-- Timestamp extraction in `process_mqtt_message`:
`timestamp = payload.get('timestamp')`; a truthy string value is passed
through `.replace('Z', '+00:00')` and `datetime.fromisoformat`; any falsy
value, non-string value (whose `.replace` raises, caught by the bare
`except`) or parse failure falls back to the current time. -/
def extractTime (env : Env) (kvs : List (String × Json)) : Nat :=
  match dictGet kvs "timestamp" with
  | none => env.now
  | some v =>
    if pyTruthy v then
      match v with
      | .str s =>
        match env.parseIso (pyReplace s "Z" "+00:00") with
        | some t => t
        | none => env.now
      | _ => env.now
    else env.now

/-- Field extraction in `process_mqtt_message`: every payload entry except
the reserved keys `device_id` and `timestamp`. -/
def extractFields (kvs : List (String × Json)) : List (String × Json) :=
  kvs.filter (fun kv => !(kv.1 == "device_id" || kv.1 == "timestamp"))

/-- The storage point `process_mqtt_message` builds for a decoded payload. -/
def buildPoint (env : Env) (deviceId measurement : String)
    (kvs : List (String × Json)) : Point :=
  { measurement := measurement
    deviceId := deviceId
    time := extractTime env kvs
    fields := extractFields kvs }

/-- Result of one `process_mqtt_message` call: the returned boolean and the
post-state of the two collaborators. -/
structure ProcResult where
  ok : Bool
  mongo : Option MongoAdapter
  influx : Option InfluxAdapter

/-- The registry section of `process_mqtt_message`: when a registry handler
is present and connected, look the device up; if found, set its stored status
to `"Online"` and then its `last_seen` to the current time; if absent, only a
warning is logged.  The returned flags of the two updates are ignored. -/
def updateLiveness (env : Env) (mongo : Option MongoAdapter)
    (deviceId : String) : Option MongoAdapter :=
  match mongo with
  | none => none
  | some mh =>
    if mh.connected then
      match getDevice mh deviceId with
      | some _ =>
        let mh₁ := (updateDeviceStatus mh deviceId "Online").1
        let mh₂ := (updateDeviceLastSeen mh₁ deviceId env.now).1
        some mh₂
      | none => some mh
    else some mh

/-- Model of `DataProcessor.process_mqtt_message (device_id, measurement, payload)`.

The registry is updated first (§ liveness), then the storage section runs:
it requires a connected storage handler, a payload with a non-`None`
`value`, builds the point and performs exactly one write.  A payload that is
not a dict makes `payload.get` raise `AttributeError`, which the enclosing
`try` turns into `False` — after the registry was already touched.
`valueIsNone` models `value = payload.get('value'); if value is None:` —
Python `None` is a missing key or a JSON `null` value. -/
def valueIsNone (o : Option Json) : Bool :=
  match o with
  | none => true
  | some .null => true
  | some _ => false

/-- See `valueIsNone` above; this is the body of
`DataProcessor.process_mqtt_message`. -/
def processMqttMessage (env : Env) (mongo : Option MongoAdapter)
    (influx : Option InfluxAdapter) (deviceId measurement : String)
    (payload : Json) : ProcResult :=
  let mongo' := updateLiveness env mongo deviceId
  match influx with
  | none => ⟨false, mongo', none⟩
  | some ih =>
    if ih.connected then
      match payload with
      | .obj kvs =>
        if valueIsNone (dictGet kvs "value") then ⟨false, mongo', some ih⟩
        else
          let r := writeDataPoint ih (buildPoint env deviceId measurement kvs)
          ⟨r.1, mongo', some r.2⟩
      | _ => ⟨false, mongo', some ih⟩  -- .get on a non-dict raises; caught
    else ⟨false, mongo', some ih⟩

/-! ## The liveness evaluator (`influx_handler._get_device_status`) -/

/-- Freshness window of the status query: `range(start: -5m)`, in seconds. -/
def freshnessWindow : Nat := 300

/-- Is the point a reading for `deviceId` inside the window `[now - 5m, now)`
of the status query? -/
def freshFor (deviceId : String) (now : Nat) (pt : Point) : Bool :=
  pt.deviceId == deviceId
    && decide (now - freshnessWindow ≤ pt.time)
    && decide (pt.time < now)

/-- Model of `InfluxDBHandler._get_device_status`: `'Offline'` when disconnected;
otherwise count the device's points in the last 5 minutes and answer
`'Online'` exactly when the count is positive.  Pure in `(ih, now)`: every
call recomputes the answer, nothing is cached and no background task exists. -/
def deviceStatus (ih : InfluxAdapter) (deviceId : String) (now : Nat) :
    String :=
  if ih.connected then
    if ih.points.any (freshFor deviceId now) then "Online" else "Offline"
  else "Offline"

/-! ## The connection manager (`MQTTHandler`) -/

/-- Retry policy constants: `retry_interval = 5`, `max_retries = 12`. -/
def maxRetries : Nat := 12

/-- The single standing subscription of the handler, sent from `_on_connect`:
`client.subscribe("devices/+/data/#")`. -/
def standingSubscriptions : List String := ["devices/+/data/#"]

/-- Connection-manager state.  `timerPending` mirrors
`retry_thread is not None and retry_thread.is_alive()`; `sessionTimers` is a
ghost counter of retry timers started since the last successful connect;
`subsSent` logs every subscribe request sent to the client; `pubResults` is
the client's arranged publish outcomes and `published` the delivered
messages. -/
structure MqttConn where
  connected : Bool
  retryCount : Nat
  timerPending : Bool
  sessionTimers : Nat
  subsSent : List String
  pubResults : List Bool
  published : List (String × Json)
deriving Repr

/-- Model of `MQTTHandler._schedule_reconnect`: below the attempt bound, bump the
counter, and start a timer only when none is alive. -/
def scheduleReconnect (s : MqttConn) : MqttConn :=
  if s.retryCount < maxRetries then
    let s := { s with retryCount := s.retryCount + 1 }
    if s.timerPending then s
    else { s with timerPending := true, sessionTimers := s.sessionTimers + 1 }
  else s

/-- Model of `MQTTHandler._on_connect`: on `rc == 0` mark connected, reset the retry
counter and (re)subscribe to the standing subscriptions; otherwise mark
disconnected and schedule a reconnect. -/
def onConnect (s : MqttConn) (rc : Nat) : MqttConn :=
  if rc = 0 then
    { s with connected := true, retryCount := 0, sessionTimers := 0,
             subsSent := s.subsSent ++ standingSubscriptions }
  else scheduleReconnect { s with connected := false }

/-- Model of `MQTTHandler._on_disconnect`: mark disconnected; schedule a reconnect
unless the disconnect was requested (`rc == 0`). -/
def onDisconnect (s : MqttConn) (rc : Nat) : MqttConn :=
  let s := { s with connected := false }
  if rc ≠ 0 then scheduleReconnect s else s

/-- External events driving the connection manager.  A fired timer runs
`_connect`; `timerFireErr` is the case where `client.connect` raises and
`_schedule_reconnect` runs again. -/
inductive MqttEvent where
  | connectOk      -- broker ack with rc = 0 (`_on_connect`)
  | connectAckFail -- broker ack with rc ≠ 0 (`_on_connect`)
  | connectError   -- `client.connect` raised inside `_connect`
  | transportLoss  -- unexpected disconnect (`_on_disconnect`, rc ≠ 0)
  | timerFireOk    -- retry timer fired, `client.connect` did not raise
  | timerFireErr   -- retry timer fired, `client.connect` raised
deriving Repr, DecidableEq

/-- One event step of the connection manager. -/
def mqttStep (s : MqttConn) : MqttEvent → MqttConn
  | .connectOk => onConnect s 0
  | .connectAckFail => onConnect s 1
  | .connectError => scheduleReconnect s
  | .transportLoss => onDisconnect s 1
  | .timerFireOk => { s with timerPending := false }
  | .timerFireErr => scheduleReconnect { s with timerPending := false }

/-- Run a sequence of events. -/
def mqttRun (s : MqttConn) (es : List MqttEvent) : MqttConn :=
  es.foldl mqttStep s

/-- The freshly constructed handler (before `_connect`). -/
def initConn : MqttConn :=
  { connected := false, retryCount := 0, timerPending := false,
    sessionTimers := 0, subsSent := [], pubResults := [], published := [] }

/-- Model of `MQTTHandler.publish`: `False` without touching anything unless
connected; a connected publish consumes the client's next outcome and the
message is delivered exactly when that outcome is success. -/
def publish (s : MqttConn) (topic : String) (payload : Json) :
    Bool × MqttConn :=
  if s.connected then
    match s.pubResults with
    | r :: rest =>
      (r, { s with pubResults := rest,
                   published := if r then s.published ++ [(topic, payload)]
                                else s.published })
    | [] => (false, s)
  else (false, s)

/-- Model of `MQTTHandler.send_command`: builds `devices/<id>/commands/<command>`,
defaults the payload to `{}`, stamps `payload['timestamp']` with the dispatch
time (`datetime.now().isoformat()`, modelled as the ISO string `nowIso`) and
delegates to `publish`. -/
def sendCommand (s : MqttConn) (nowIso : String) (deviceId command : String)
    (payload : Option (List (String × Json))) : Bool × MqttConn :=
  let topic := "devices/" ++ deviceId ++ "/commands/" ++ command
  let kvs := payload.getD []
  let kvs := objInsert kvs "timestamp" (.str nowIso)
  publish s topic (.obj kvs)

/-! ## Claim C1 — liveness is recency within a 5-minute window -/

/-- C1: with the store reachable, `status(device_id)` is `Online` iff at
least one reading for that device lies in the 5-minute freshness window
before the evaluation instant, and `Offline` otherwise.  `deviceStatus` is a
plain function of the store contents and the evaluation instant, so every
call recomputes the answer: there is no hysteresis and no background
demotion. -/
theorem deviceStatus_online_iff_fresh (ih : InfluxAdapter) (deviceId : String)
    (now : Nat) (hconn : ih.connected = true) :
    deviceStatus ih deviceId now = "Online" ↔
      ∃ pt ∈ ih.points, pt.deviceId = deviceId ∧
        now - freshnessWindow ≤ pt.time ∧ pt.time < now := by
  simp only [deviceStatus, hconn, if_true, List.any_eq_true, freshFor,
    Bool.and_eq_true, beq_iff_eq, decide_eq_true_eq, and_assoc]
  split
  case isTrue h => exact iff_of_true rfl h
  case isFalse h => exact iff_of_false (by decide) h

/-- Witness for C1: a reading at tick 100 keeps the device Online at
tick 200. -/
theorem deviceStatus_online_iff_fresh_witness :
    deviceStatus ⟨true, [], [⟨"sensors", "temp-1", 100, []⟩]⟩ "temp-1" 200 =
      "Online" :=
  (deviceStatus_online_iff_fresh ⟨true, [], [⟨"sensors", "temp-1", 100, []⟩]⟩
      "temp-1" 200 rfl).mpr
    ⟨⟨"sensors", "temp-1", 100, []⟩, by simp, rfl, by decide, by decide⟩

/-! ## Claim C2 — topic parsing -/

/-- C2: a topic with at least 4 slash-delimited segments parses to the
second segment as device id and the fourth as channel; fewer than 4
segments yield `invalidTopic`, and the receive callback then drops the
message (`onMessage` is total, so the pipeline continues). -/
theorem parseTopic_segments (topic : String) :
    (4 ≤ (pySplit topic '/').length →
      parseTopic topic =
        .ok (pySplit topic '/')[1]! (pySplit topic '/')[3]!) ∧
    ((pySplit topic '/').length < 4 →
      parseTopic topic = .invalidTopic ∧
        ∀ raw, onMessage topic raw = none) := by
  constructor
  · intro h
    simp only [parseTopic]
    rw [if_pos h]
  · intro h
    have hp : parseTopic topic = .invalidTopic := by
      simp only [parseTopic]
      rw [if_neg (by omega)]
    exact ⟨hp, fun raw => by simp only [onMessage, hp]⟩

/-- Witness for C2: the canonical telemetry topic parses, a 2-segment topic
is rejected and dropped. -/
theorem parseTopic_segments_witness :
    parseTopic "devices/temp-1/data/sensors" = .ok "temp-1" "sensors" ∧
      parseTopic "devices/temp-1" = .invalidTopic ∧
      onMessage "devices/temp-1" "\x7b\x7d" = none := by
  refine ⟨?_, ?_, ?_⟩
  · exact (parseTopic_segments "devices/temp-1/data/sensors").1 (by decide)
  · exact ((parseTopic_segments "devices/temp-1").2 (by decide)).1
  · exact ((parseTopic_segments "devices/temp-1").2 (by decide)).2 "\x7b\x7d"

/-! ## Claim C3 — payload decoding

The code falls back to `{'value': <raw text>}` only when `json.loads`
raises, i.e. only when the payload is not valid **JSON**.  The text `'42'`
is valid JSON (a number), so it is *not* degraded: it decodes to the number
42, not to `{value: "42"}`.  The claim's example fails on the code. -/

/-- C3 counterexample: `decode('42')` yields the JSON number 42, not the
degraded record `{value: "42"}` the claim requires. -/
theorem decodePayload_42_counterexample :
    decodePayload "42" = Json.num "42" ∧
      Json.num "42" ≠ Json.obj [("value", Json.str "42")] :=
  ⟨rfl, fun h => Json.noConfusion h⟩

/-- C3 amended: decoding is total and never throws; when the payload is not
valid JSON the result is the degraded record `{value: <raw text>}`, whose
timestamp (extracted later in the pipeline) is the ingestion time; a payload
that is valid JSON — even a bare scalar such as `42` — is returned as
decoded, unchanged. -/
theorem decodePayload_spec (raw : String) (env : Env) :
    (loads raw = none →
      decodePayload raw = Json.obj [("value", Json.str raw)] ∧
        extractTime env [("value", Json.str raw)] = env.now) ∧
    (∀ j, loads raw = some j → decodePayload raw = j) := by
  constructor
  · intro h
    constructor
    · simp only [decodePayload, h]
    · rfl
  · intro j h
    simp only [decodePayload, h]

/-- Witness for C3 amended: `'abc'` is not JSON and degrades with ingestion
time; `'42'` is JSON and passes through. -/
theorem decodePayload_spec_witness :
    (decodePayload "abc" = Json.obj [("value", Json.str "abc")] ∧
      extractTime ⟨77, fun _ => none⟩ [("value", Json.str "abc")] = 77) ∧
    decodePayload "42" = Json.num "42" :=
  ⟨(decodePayload_spec "abc" ⟨77, fun _ => none⟩).1 rfl,
   (decodePayload_spec "42" ⟨77, fun _ => none⟩).2 (Json.num "42") rfl⟩

/-! ## Claim C7 — subscriptions are replayed on every connect -/

/-- The function `_schedule_reconnect` never touches the connected flag or the
subscription log. -/
theorem scheduleReconnect_connected (s : MqttConn) :
    (scheduleReconnect s).connected = s.connected ∧
      (scheduleReconnect s).subsSent = s.subsSent := by
  unfold scheduleReconnect
  split
  · dsimp only
    split <;> exact ⟨rfl, rfl⟩
  · exact ⟨rfl, rfl⟩

/-- C7: every transition into Connected — the broker ack callback with
`rc = 0`, which is also how a reconnect after a dropped session completes —
replays the whole standing subscription set, with no caller action (the
subscribe calls are issued from inside the callback itself). -/
theorem connected_replays_subscriptions (s : MqttConn) (rc : Nat)
    (h : (onConnect s rc).connected = true) :
    (onConnect s rc).subsSent = s.subsSent ++ standingSubscriptions := by
  unfold onConnect at *
  by_cases hrc : rc = 0
  · simp [hrc]
  · rw [if_neg hrc] at h
    rw [(scheduleReconnect_connected _).1] at h
    exact absurd h (by simp)

/-- Witness for C7: a handler that lost its session (3 retries in) reconnects
and the standing subscription is sent again. -/
theorem connected_replays_subscriptions_witness :
    (onConnect ⟨false, 3, false, 2, ["devices/+/data/#"], [], []⟩ 0).subsSent =
      ["devices/+/data/#", "devices/+/data/#"] :=
  connected_replays_subscriptions ⟨false, 3, false, 2, ["devices/+/data/#"], [], []⟩ 0 rfl

/-! ## Claim C8 — at most one pending retry timer, bounded attempts -/

/-- Invariant of the retry machinery: timers started this session never
exceed the attempt counter, which never exceeds the bound. -/
def retryInv (s : MqttConn) : Prop :=
  s.sessionTimers ≤ s.retryCount ∧ s.retryCount ≤ maxRetries

theorem retryInv_scheduleReconnect {s : MqttConn} (h : retryInv s) :
    retryInv (scheduleReconnect s) := by
  obtain ⟨h1, h2⟩ := h
  unfold scheduleReconnect retryInv
  split
  · dsimp only
    split <;> simp <;> omega
  · exact ⟨h1, h2⟩

theorem retryInv_step {s : MqttConn} (h : retryInv s) (e : MqttEvent) :
    retryInv (mqttStep s e) := by
  obtain ⟨h1, h2⟩ := h
  cases e
  case connectOk =>
    simp [mqttStep, onConnect, retryInv, maxRetries]
  case connectAckFail =>
    have h : mqttStep s .connectAckFail =
        scheduleReconnect { s with connected := false } := by
      simp [mqttStep, onConnect]
    rw [h]
    exact retryInv_scheduleReconnect ⟨h1, h2⟩
  case connectError => exact retryInv_scheduleReconnect ⟨h1, h2⟩
  case transportLoss =>
    have h : mqttStep s .transportLoss =
        scheduleReconnect { s with connected := false } := by
      simp [mqttStep, onDisconnect]
    rw [h]
    exact retryInv_scheduleReconnect ⟨h1, h2⟩
  case timerFireOk => exact ⟨h1, h2⟩
  case timerFireErr => exact retryInv_scheduleReconnect ⟨h1, h2⟩

theorem retryInv_run {s : MqttConn} (h : retryInv s) (es : List MqttEvent) :
    retryInv (mqttRun s es) := by
  induction es generalizing s with
  | nil => exact h
  | cons e es ih => exact ih (retryInv_step h e)

/-- C8: (i) `_schedule_reconnect` starts a new timer only when none is
pending — a second failure while a retry is scheduled bumps the counter but
creates no second timer; and (ii) along every event trace from the initial
state, the number of retry timers started in a session never exceeds the
fixed bound `max_retries = 12`. -/
theorem retry_timer_discipline :
    (∀ s : MqttConn, s.timerPending = true →
      (scheduleReconnect s).sessionTimers = s.sessionTimers ∧
        (scheduleReconnect s).timerPending = true) ∧
    (∀ es : List MqttEvent, (mqttRun initConn es).sessionTimers ≤ maxRetries) := by
  constructor
  · intro s h
    unfold scheduleReconnect
    split
    · dsimp only
      rw [if_pos (by simpa using h)]
      exact ⟨rfl, by simpa using h⟩
    · exact ⟨rfl, h⟩
  · intro es
    have h := retryInv_run (s := initConn) ⟨Nat.le_refl 0, by simp [initConn, maxRetries]⟩ es
    exact h.1.trans h.2

/-- Witness for C8: with a timer already pending, a second failure schedules
nothing new; and a concrete failure trace stays within the bound. -/
theorem retry_timer_discipline_witness :
    ((scheduleReconnect ⟨false, 1, true, 1, [], [], []⟩).sessionTimers = 1 ∧
      (scheduleReconnect ⟨false, 1, true, 1, [], [], []⟩).timerPending = true) ∧
    (mqttRun initConn [.connectError, .connectAckFail, .timerFireErr]).sessionTimers ≤
      maxRetries :=
  ⟨retry_timer_discipline.1 ⟨false, 1, true, 1, [], [], []⟩ rfl,
   retry_timer_discipline.2 [.connectError, .connectAckFail, .timerFireErr]⟩

/-! ## Claim C9 — commands are fire-and-forget -/

/-- C9: `send_command` publishes to `devices/<id>/commands/<command>` with a
dispatch timestamp attached to the payload; when the manager is not
Connected it returns `false` at once and the state is untouched (no
queueing, no retry); when Connected and the client accepts, exactly that one
message is delivered. -/
theorem sendCommand_spec (s : MqttConn) (nowIso deviceId command : String)
    (payload : Option (List (String × Json))) :
    (s.connected = false →
      sendCommand s nowIso deviceId command payload = (false, s)) ∧
    (∀ rest, s.connected = true → s.pubResults = true :: rest →
      sendCommand s nowIso deviceId command payload =
        (true, { s with pubResults := rest,
                        published := s.published ++
                          [("devices/" ++ deviceId ++ "/commands/" ++ command,
                            .obj (objInsert (payload.getD []) "timestamp"
                              (.str nowIso)))] })) := by
  constructor
  · intro h
    simp [sendCommand, publish, h]
  · intro rest hc hr
    simp [sendCommand, publish, hc, hr]

/-- Witness for C9: disconnected manager refuses a command without touching
state; a connected one delivers it with the timestamp attached. -/
theorem sendCommand_spec_witness :
    sendCommand ⟨false, 0, false, 0, [], [true], []⟩ "T0" "temp-1" "reboot" none =
      (false, ⟨false, 0, false, 0, [], [true], []⟩) ∧
    sendCommand ⟨true, 0, false, 0, [], [true], []⟩ "T0" "temp-1" "reboot" none =
      (true, ⟨true, 0, false, 0, [], [],
        [("devices/temp-1/commands/reboot",
          .obj [("timestamp", .str "T0")])]⟩) :=
  ⟨(sendCommand_spec ⟨false, 0, false, 0, [], [true], []⟩ "T0" "temp-1" "reboot" none).1 rfl,
   (sendCommand_spec ⟨true, 0, false, 0, [], [true], []⟩ "T0" "temp-1" "reboot" none).2 [] rfl rfl⟩

/-! ## Registry helper lemmas -/

/-- An `update_one` rewrites exactly the first matching document: a later
`find_one` for the same id sees the updated document. -/
theorem find?_updateFirstDevice (ds : List Device) (deviceId : String)
    (f : Device → Device) (hf : ∀ x, (f x).deviceId = x.deviceId)
    (dev : Device)
    (h : ds.find? (fun d => d.deviceId == deviceId) = some dev) :
    (updateFirstDevice ds deviceId f).1.find? (fun d => d.deviceId == deviceId) =
      some (f dev) := by
  induction ds with
  | nil => simp at h
  | cons d rest ih =>
    by_cases hd : d.deviceId = deviceId
    · rw [List.find?_cons_of_pos _ (by simpa using hd)] at h
      injection h with h
      subst h
      simp only [updateFirstDevice, if_pos hd]
      exact List.find?_cons_of_pos _ (by simp [hf, hd])
    · rw [List.find?_cons_of_neg _ (by simpa using hd)] at h
      simp only [updateFirstDevice, if_neg hd]
      rw [List.find?_cons_of_neg _ (by simpa using hd)]
      exact ih h

/-- The device found after the liveness section of `process_mqtt_message`:
an existing record keeps its identity and gets `status = "Online"` and
`last_seen = now`. -/
theorem updateLiveness_registered (env : Env) (mh : MongoAdapter) (d : String)
    (dev : Device) (hconn : mh.connected = true)
    (hdev : getDevice mh d = some dev) :
    ∃ mh', updateLiveness env (some mh) d = some mh' ∧
      getDevice mh' d =
        some { dev with status := "Online", lastSeen := some env.now } := by
  have hfind : mh.devices.find? (fun x => x.deviceId == d) = some dev := by
    simpa [getDevice, hconn] using hdev
  refine ⟨(updateDeviceLastSeen (updateDeviceStatus mh d "Online").1 d env.now).1,
    by simp only [updateLiveness, hconn, if_true, hdev], ?_⟩
  have h1 := find?_updateFirstDevice mh.devices d
    (fun x => { x with status := "Online" }) (fun _ => rfl) dev hfind
  have h2 := find?_updateFirstDevice
    (updateFirstDevice mh.devices d (fun x => { x with status := "Online" })).1
    d (fun x => { x with lastSeen := some env.now }) (fun _ => rfl) _ h1
  simpa [getDevice, updateDeviceStatus, updateDeviceLastSeen, hconn] using h2

/-- The liveness section is skipped entirely — the registry is returned
unchanged — when the device is absent from the registry. -/
theorem updateLiveness_absent (env : Env) (mh : MongoAdapter) (d : String)
    (h : getDevice mh d = none) :
    updateLiveness env (some mh) d = some mh := by
  unfold updateLiveness
  dsimp only
  split
  · rw [h]
  · rfl

/-- The registry after `process_mqtt_message` is exactly the liveness
update, whatever the storage section then does. -/
theorem processMqttMessage_mongo (env : Env) (mongo : Option MongoAdapter)
    (influx : Option InfluxAdapter) (d m : String) (p : Json) :
    (processMqttMessage env mongo influx d m p).mongo =
      updateLiveness env mongo d := by
  unfold processMqttMessage
  cases influx with
  | none => rfl
  | some ih =>
    dsimp only
    split
    · cases p <;> try rfl
      case obj kvs =>
        dsimp only
        split <;> rfl
    · rfl

/-! ## Claim C6 — last-seen bookkeeping

The claim says the liveness record is created on the first-ever reading and
mutated on every ingest, *including readings for devices absent from the
registry*.  The code only updates a record when `get_device` finds one, and
`update_one` without upsert never creates a document: an unregistered
device's reading leaves the registry untouched. -/

/-- C6 counterexample: a first-ever reading for `temp-1` against a reachable
but empty registry.  Ingestion even succeeds (`ok = true`), yet the registry
comes back exactly as it was — no `DeviceLivenessRecord` is created and no
`last_seen` is written, contradicting the claim. -/
theorem ingest_unregistered_counterexample :
    (processMqttMessage ⟨1000, fun _ => none⟩ (some ⟨true, []⟩)
        (some ⟨true, [true], []⟩) "temp-1" "sensors"
        (Json.obj [("value", Json.num "5")])).mongo = some ⟨true, []⟩ ∧
    (processMqttMessage ⟨1000, fun _ => none⟩ (some ⟨true, []⟩)
        (some ⟨true, [true], []⟩) "temp-1" "sensors"
        (Json.obj [("value", Json.num "5")])).ok = true :=
  ⟨rfl, rfl⟩

/-- C6 amended: when the registry is reachable, ingest mutates the liveness
metadata of a device **already present in the registry** on every reading —
its stored status becomes `"Online"` and its `last_seen` the ingestion
time — but it never creates a record: a reading for a device absent from the
registry leaves the registry unchanged (only a warning is logged). -/
theorem liveness_update_spec (env : Env) (mh : MongoAdapter)
    (influx : Option InfluxAdapter) (d m : String) (p : Json)
    (hconn : mh.connected = true) :
    (∀ dev, getDevice mh d = some dev →
      ∃ mh', (processMqttMessage env (some mh) influx d m p).mongo = some mh' ∧
        getDevice mh' d =
          some { dev with status := "Online", lastSeen := some env.now }) ∧
    (getDevice mh d = none →
      (processMqttMessage env (some mh) influx d m p).mongo = some mh) := by
  constructor
  · intro dev hdev
    obtain ⟨mh', h1, h2⟩ := updateLiveness_registered env mh d dev hconn hdev
    exact ⟨mh', by rw [processMqttMessage_mongo, h1], h2⟩
  · intro h
    rw [processMqttMessage_mongo, updateLiveness_absent env mh d h]

/-- Witness for C6 amended: a registered `temp-1` (previously Offline, never
seen) is mutated in place to Online / last seen 1000; and nothing changes
for a device the registry does not contain. -/
theorem liveness_update_spec_witness :
    (∃ mh', (processMqttMessage ⟨1000, fun _ => none⟩
        (some ⟨true, [⟨"temp-1", "Offline", none⟩]⟩) none "temp-1" "sensors"
        (Json.obj [])).mongo = some mh' ∧
      getDevice mh' "temp-1" = some ⟨"temp-1", "Online", some 1000⟩) ∧
    (processMqttMessage ⟨1000, fun _ => none⟩
        (some ⟨true, [⟨"other", "Offline", none⟩]⟩) none "temp-1" "sensors"
        (Json.obj [])).mongo = some ⟨true, [⟨"other", "Offline", none⟩]⟩ :=
  ⟨(liveness_update_spec ⟨1000, fun _ => none⟩ ⟨true, [⟨"temp-1", "Offline", none⟩]⟩
      none "temp-1" "sensors" (Json.obj []) rfl).1 ⟨"temp-1", "Offline", none⟩ rfl,
   (liveness_update_spec ⟨1000, fun _ => none⟩ ⟨true, [⟨"other", "Offline", none⟩]⟩
      none "temp-1" "sensors" (Json.obj []) rfl).2 rfl⟩

/-! ## Claim C10 — ingest mutates the registry before the storage write -/

/-- C10: for a registered device with a reachable registry, the registry
mutation (stored status `"Online"`, then `last_seen`) happens regardless of
the storage outcome; so when the storage write fails and the call returns
`false`, the liveness metadata has already been mutated — ingest is not
atomic on error, and the registry holds a *stored* status value. -/
theorem ingest_mutates_registry_on_failed_write (env : Env)
    (mh : MongoAdapter) (ih : InfluxAdapter) (d m : String)
    (kvs : List (String × Json)) (dev : Device) (v : Json) (rest : List Bool)
    (hmc : mh.connected = true) (hdev : getDevice mh d = some dev)
    (hic : ih.connected = true) (hw : ih.writeResults = false :: rest)
    (hv : dictGet kvs "value" = some v) (hvn : v ≠ Json.null) :
    (processMqttMessage env (some mh) (some ih) d m (.obj kvs)).ok = false ∧
    (processMqttMessage env (some mh) (some ih) d m (.obj kvs)).influx =
      some ⟨true, rest, ih.points⟩ ∧
    (∃ mh', (processMqttMessage env (some mh) (some ih) d m (.obj kvs)).mongo =
        some mh' ∧
      getDevice mh' d =
        some { dev with status := "Online", lastSeen := some env.now }) := by
  obtain ⟨mh', h1, h2⟩ := updateLiveness_registered env mh d dev hmc hdev
  have hvi : valueIsNone (dictGet kvs "value") = false := by
    rw [hv]; cases v <;> first | exact absurd rfl hvn | rfl
  refine ⟨?_, ?_, mh', by rw [processMqttMessage_mongo, h1], h2⟩
  · simp only [processMqttMessage, hic, if_true, hvi, Bool.false_eq_true,
      if_false, writeDataPoint, hw]
  · simp only [processMqttMessage, hic, if_true, hvi, Bool.false_eq_true,
      if_false, writeDataPoint, hw]

/-- Witness for C10: registered `temp-1`, reachable registry, storage write
arranged to fail — ingest returns `false`, consumes the failed write, and the
registry nevertheless already says Online / last seen 1000. -/
theorem ingest_mutates_registry_on_failed_write_witness :
    (processMqttMessage ⟨1000, fun _ => none⟩
        (some ⟨true, [⟨"temp-1", "Offline", none⟩]⟩) (some ⟨true, [false], []⟩)
        "temp-1" "sensors" (Json.obj [("value", Json.num "5")])).ok = false ∧
    (processMqttMessage ⟨1000, fun _ => none⟩
        (some ⟨true, [⟨"temp-1", "Offline", none⟩]⟩) (some ⟨true, [false], []⟩)
        "temp-1" "sensors" (Json.obj [("value", Json.num "5")])).influx =
      some ⟨true, [], []⟩ ∧
    (∃ mh', (processMqttMessage ⟨1000, fun _ => none⟩
        (some ⟨true, [⟨"temp-1", "Offline", none⟩]⟩) (some ⟨true, [false], []⟩)
        "temp-1" "sensors" (Json.obj [("value", Json.num "5")])).mongo =
          some mh' ∧
      getDevice mh' "temp-1" = some ⟨"temp-1", "Online", some 1000⟩) :=
  ingest_mutates_registry_on_failed_write ⟨1000, fun _ => none⟩
    ⟨true, [⟨"temp-1", "Offline", none⟩]⟩ ⟨true, [false], []⟩ "temp-1" "sensors"
    [("value", Json.num "5")] ⟨"temp-1", "Offline", none⟩ (Json.num "5") []
    rfl rfl rfl rfl rfl (fun h => Json.noConfusion h)

/-! ## Storage-section decomposition lemmas -/

/-- The result of `process_mqtt_message` splits into a registry part that
depends only on the registry and a boolean/storage part that never reads
the registry. -/
theorem processMqttMessage_decompose (env : Env) (mongo : Option MongoAdapter)
    (influx : Option InfluxAdapter) (d m : String) (p : Json) :
    processMqttMessage env mongo influx d m p =
      ⟨(processMqttMessage env none influx d m p).ok,
       updateLiveness env mongo d,
       (processMqttMessage env none influx d m p).influx⟩ := by
  cases influx with
  | none => rfl
  | some ih =>
    by_cases hic : ih.connected = true
    · cases p with
      | obj kvs =>
        cases hvi : valueIsNone (dictGet kvs "value") with
        | true => simp only [processMqttMessage, hic, if_true, hvi]
        | false =>
          simp only [processMqttMessage, hic, if_true, hvi,
            Bool.false_eq_true, if_false]
      | null => simp only [processMqttMessage, hic, if_true]
      | bool b => simp only [processMqttMessage, hic, if_true]
      | num lit => simp only [processMqttMessage, hic, if_true]
      | str t => simp only [processMqttMessage, hic, if_true]
      | arr elems => simp only [processMqttMessage, hic, if_true]
    · have h : ih.connected = false := by simpa using hic
      simp only [processMqttMessage, h, Bool.false_eq_true, if_false]

/-- The three possible outcomes of the storage section: nothing consumed
(`false`, adapter untouched), a failed write consumed (`false`, outcome
popped, no point), or a successful write (`true`, outcome popped, exactly
the built point appended). -/
theorem processMqttMessage_outcomes (env : Env) (mongo : Option MongoAdapter)
    (ih : InfluxAdapter) (d m : String) (p : Json) :
    (processMqttMessage env mongo (some ih) d m p =
        ⟨false, updateLiveness env mongo d, some ih⟩) ∨
    (∃ rest, ih.connected = true ∧ ih.writeResults = false :: rest ∧
      processMqttMessage env mongo (some ih) d m p =
        ⟨false, updateLiveness env mongo d, some ⟨true, rest, ih.points⟩⟩) ∨
    (∃ kvs rest, p = .obj kvs ∧ ih.connected = true ∧
      ih.writeResults = true :: rest ∧
      processMqttMessage env mongo (some ih) d m p =
        ⟨true, updateLiveness env mongo d,
          some ⟨true, rest, ih.points ++ [buildPoint env d m kvs]⟩⟩) := by
  by_cases hic : ih.connected = true
  · cases p with
    | obj kvs =>
      cases hvi : valueIsNone (dictGet kvs "value") with
      | true =>
        left
        simp only [processMqttMessage, hic, if_true, hvi]
      | false =>
        cases hw : ih.writeResults with
        | nil =>
          left
          simp only [processMqttMessage, hic, if_true, hvi,
            Bool.false_eq_true, if_false, writeDataPoint, hw]
        | cons r rest =>
          cases r with
          | false =>
            refine Or.inr (Or.inl ⟨rest, hic, rfl, ?_⟩)
            simp only [processMqttMessage, hic, if_true, hvi,
              Bool.false_eq_true, if_false, writeDataPoint, hw]
          | true =>
            refine Or.inr (Or.inr ⟨kvs, rest, rfl, hic, rfl, ?_⟩)
            simp only [processMqttMessage, hic, if_true, hvi,
              Bool.false_eq_true, if_false, writeDataPoint, hw]
    | null => left; simp only [processMqttMessage, hic, if_true]
    | bool b => left; simp only [processMqttMessage, hic, if_true]
    | num lit => left; simp only [processMqttMessage, hic, if_true]
    | str t => left; simp only [processMqttMessage, hic, if_true]
    | arr elems => left; simp only [processMqttMessage, hic, if_true]
  · left
    have h : ih.connected = false := by simpa using hic
    simp only [processMqttMessage, h, Bool.false_eq_true, if_false]

/-! ## Claim C4 — return value tracks the storage write -/

/-- C4: ingest returns `false` when the storage handler is absent or reports
disconnected (and the adapter is untouched); it returns `true` exactly when
the storage write succeeded — i.e. exactly when one point was persisted and
one write outcome consumed; the returned boolean does not depend on the
registry (pre-registered or not); and the write is never retried: at most
one arranged outcome is consumed per call. -/
theorem ingest_storage_contract (env : Env) (mongo mongo₂ : Option MongoAdapter)
    (ih : InfluxAdapter) (d m : String) (p : Json) :
    ((processMqttMessage env mongo none d m p).ok = false) ∧
    (ih.connected = false →
      (processMqttMessage env mongo (some ih) d m p).ok = false ∧
      (processMqttMessage env mongo (some ih) d m p).influx = some ih) ∧
    ((processMqttMessage env mongo (some ih) d m p).ok = true ↔
      ∃ pt, (processMqttMessage env mongo (some ih) d m p).influx =
        some ⟨true, ih.writeResults.tail, ih.points ++ [pt]⟩) ∧
    ((processMqttMessage env mongo (some ih) d m p).ok =
      (processMqttMessage env mongo₂ (some ih) d m p).ok) ∧
    (∀ ih', (processMqttMessage env mongo (some ih) d m p).influx = some ih' →
      ih'.writeResults = ih.writeResults ∨
        ih'.writeResults = ih.writeResults.tail) := by
  refine ⟨rfl, ?_, ?_, ?_, ?_⟩
  · intro h
    simp only [processMqttMessage, h, Bool.false_eq_true, if_false]
    exact ⟨by trivial, by trivial⟩
  · rcases processMqttMessage_outcomes env mongo ih d m p with
      hP | ⟨rest, hic, hw, hP⟩ | ⟨kvs, rest, hp, hic, hw, hP⟩
    · rw [hP]
      constructor
      · intro h; exact absurd h (by simp)
      · rintro ⟨pt, hpt⟩
        injection hpt with h2
        have := congrArg InfluxAdapter.points h2
        simp at this
    · rw [hP]
      constructor
      · intro h; exact absurd h (by simp)
      · rintro ⟨pt, hpt⟩
        injection hpt with h2
        have := congrArg InfluxAdapter.points h2
        simp at this
    · rw [hP, hw]
      exact iff_of_true (by trivial) ⟨buildPoint env d m kvs, by trivial⟩
  · rw [processMqttMessage_decompose env mongo (some ih) d m p,
      processMqttMessage_decompose env mongo₂ (some ih) d m p]
  · intro ih' hin
    rcases processMqttMessage_outcomes env mongo ih d m p with
      hP | ⟨rest, hic, hw, hP⟩ | ⟨kvs, rest, hp, hic, hw, hP⟩
    · rw [hP] at hin
      injection hin with h2
      rw [← h2]
      exact Or.inl rfl
    · rw [hP] at hin
      injection hin with h2
      rw [← h2, hw]
      exact Or.inr rfl
    · rw [hP] at hin
      injection hin with h2
      rw [← h2, hw]
      exact Or.inr rfl

/-- Witness for C4: a disconnected adapter refuses; a connected one with a
successful arranged write returns `true` and has persisted one point. -/
theorem ingest_storage_contract_witness :
    ((processMqttMessage ⟨5, fun _ => none⟩ none (some ⟨false, [true], []⟩)
        "temp-1" "sensors" (Json.obj [("value", Json.num "1")])).ok = false) ∧
    ((processMqttMessage ⟨5, fun _ => none⟩ none (some ⟨true, [true], []⟩)
        "temp-1" "sensors" (Json.obj [("value", Json.num "1")])).ok = true) :=
  ⟨((ingest_storage_contract ⟨5, fun _ => none⟩ none none ⟨false, [true], []⟩
      "temp-1" "sensors" (Json.obj [("value", Json.num "1")])).2.1 rfl).1,
   (ingest_storage_contract ⟨5, fun _ => none⟩ none none ⟨true, [true], []⟩
      "temp-1" "sensors" (Json.obj [("value", Json.num "1")])).2.2.1.mpr
     ⟨⟨"sensors", "temp-1", 5, [("value", Json.num "1")]⟩, rfl⟩⟩

/-! ## Claim C5 — the shape of the persisted point

The claim quantifies over *every* decoded reading.  The code, however,
requires a non-`None` `value` field: a perfectly well-formed structured
reading such as `{"temp": 5}` is rejected with `false` and persists
nothing, so "persists exactly one storage point" fails as stated. -/

/-- C5 counterexample: the decoded reading `{"temp": 5}` — storage connected,
write arranged to succeed — persists no point at all and returns `false`,
because the code demands a `value` key. -/
theorem ingest_missing_value_counterexample :
    (processMqttMessage ⟨1000, fun _ => none⟩ none (some ⟨true, [true], []⟩)
        "temp-1" "sensors" (Json.obj [("temp", Json.num "5")])).ok = false ∧
    (processMqttMessage ⟨1000, fun _ => none⟩ none (some ⟨true, [true], []⟩)
        "temp-1" "sensors" (Json.obj [("temp", Json.num "5")])).influx =
      some ⟨true, [true], []⟩ :=
  ⟨rfl, rfl⟩

/-- C5 amended: for every decoded reading that carries a non-`None` `value`
field, with the storage adapter connected and the write succeeding, ingest
persists exactly one storage point
`{measurement: channel, tags: {device_id}, time, fields}` whose fields are
the payload minus the reserved keys `device_id` and `timestamp`, and whose
time is the payload timestamp when present, truthy and parseable, otherwise
the ingestion time.  Readings without a `value` field persist nothing and
return `false` (see the counterexample). -/
theorem ingest_point_shape (env : Env) (mongo : Option MongoAdapter)
    (ih : InfluxAdapter) (d m : String) (kvs : List (String × Json))
    (rest : List Bool) (hic : ih.connected = true)
    (hv : valueIsNone (dictGet kvs "value") = false)
    (hw : ih.writeResults = true :: rest) :
    (processMqttMessage env mongo (some ih) d m (.obj kvs)).ok = true ∧
    (processMqttMessage env mongo (some ih) d m (.obj kvs)).influx =
      some ⟨true, rest, ih.points ++ [buildPoint env d m kvs]⟩ ∧
    (buildPoint env d m kvs).measurement = m ∧
    (buildPoint env d m kvs).deviceId = d ∧
    (∀ kw, kw ∈ (buildPoint env d m kvs).fields ↔
      kw ∈ kvs ∧ kw.1 ≠ "device_id" ∧ kw.1 ≠ "timestamp") ∧
    (dictGet kvs "timestamp" = none → (buildPoint env d m kvs).time = env.now) ∧
    (∀ ts t, dictGet kvs "timestamp" = some (.str ts) → ts.data ≠ [] →
      env.parseIso (pyReplace ts "Z" "+00:00") = some t →
      (buildPoint env d m kvs).time = t) := by
  refine ⟨?_, ?_, rfl, rfl, ?_, ?_, ?_⟩
  · simp only [processMqttMessage, hic, if_true, hv, Bool.false_eq_true,
      if_false, writeDataPoint, hw]
  · simp only [processMqttMessage, hic, if_true, hv, Bool.false_eq_true,
      if_false, writeDataPoint, hw]
  · intro kw
    simp [buildPoint, extractFields, List.mem_filter, not_or]
  · intro h
    simp only [buildPoint, extractTime, h]
  · intro ts t hts hne hp
    have htr : pyTruthy (Json.str ts) = true := by
      simp only [pyTruthy, Bool.not_eq_eq_eq_not, Bool.not_false]
      cases h2 : ts.data with
      | nil => exact absurd h2 hne
      | cons c cs => simp [List.isEmpty, h2]
    simp only [buildPoint, extractTime, hts, htr, if_true, hp]

/-- Witness for C5 amended: the end-to-end example — the payload
`{"value":22.3,"timestamp":"2024-05-01T12:00:00Z"}` published on
`devices/temp-1/data/sensors`, decoded by the receive callback, results in
exactly one point `{measurement: "sensors", tags: {device_id: "temp-1"},
time: 2024-05-01T12:00:00Z (tick 1714564800), fields: {value: 22.3}}`,
persisted with the payload's own timestamp, not the ingestion tick. -/
theorem ingest_point_shape_witness :
    (processMqttMessage
        ⟨1714999999, fun s =>
          if s = "2024-05-01T12:00:00+00:00" then some 1714564800 else none⟩
        none (some ⟨true, [true], []⟩) "temp-1" "sensors"
        (decodePayload
          "\x7b\"value\":22.3,\"timestamp\":\"2024-05-01T12:00:00Z\"\x7d")).influx =
      some ⟨true, [],
        [⟨"sensors", "temp-1", 1714564800, [("value", Json.num "22.3")]⟩]⟩ := by
  have h := (ingest_point_shape
      ⟨1714999999, fun s =>
        if s = "2024-05-01T12:00:00+00:00" then some 1714564800 else none⟩
      none ⟨true, [true], []⟩ "temp-1" "sensors"
      [("value", Json.num "22.3"),
       ("timestamp", Json.str "2024-05-01T12:00:00Z")]
      [] rfl rfl rfl).2.1
  exact h

end IoTSpec
